import Mathlib

/-!
Verification development for the Temporal CI/CD workshop repository
(temporal-community/workshop-cicd-k8s-deployment).

The orchestration core lives in `workflows/pipeline.go`
(`CICDPipelineWorkflow` and its helper `deployToProduction`).  We embed it
shallowly: every external activity invocation and every signal reception is
recorded as an `Event`, the results of the external world (activity outcomes
after the substrate's retries, and the signals delivered on each channel)
are collected in an `Env`, and the workflow becomes a pure function from the
request and the environment to an optional pair of the event trace and the
Go function's return value (`Except String Unit` mirrors Go's
`error` / `nil`).  `none` models an execution that blocks forever on a
signal channel that never receives a signal.
-/

namespace CICD

/-- `shared.PipelineRequest` (shared/types.go). -/
structure PipelineRequest where
  ImageName : String
  Tag : String
  RegistryURL : String
  Environment : String
  BuildContext : String
  Dockerfile : String
deriving DecidableEq

/-- `shared.DockerBuildResponse` (durations modelled in nanoseconds as `Nat`). -/
structure DockerBuildResponse where
  ImageID : String
  BuildTime : Nat
deriving DecidableEq

/-- `shared.DockerTestResponse`. -/
structure DockerTestResponse where
  Passed : Bool
  TestTime : Nat
  Output : String
deriving DecidableEq

/-- `shared.DockerPushResponse`. -/
structure DockerPushResponse where
  Digest : String
  PushTime : Nat
deriving DecidableEq

/-- `shared.DeployToKubernetesResponse`. -/
structure DeployToKubernetesResponse where
  Success : Bool
  DeploymentURL : String
  Message : String
deriving DecidableEq

/-- `shared.SendApprovalRequestResponse`. -/
structure SendApprovalRequestResponse where
  Success : Bool
  NotificationID : String
  Message : String
deriving DecidableEq

/-- `shared.LogApprovalDecisionResponse`. -/
structure LogApprovalDecisionResponse where
  Success : Bool
  Message : String
deriving DecidableEq

/-- `shared.ApprovalSignal`. -/
structure ApprovalSignal where
  Approved : Bool
  Approver : String
  Reason : String
deriving DecidableEq

/-- `shared.ValidationSignal` (fields as read in `deployToProduction`). -/
structure ValidationSignal where
  Validated : Bool
  Validator : String
  Reason : String
deriving DecidableEq

/-- `shared.RollbackDeploymentResponse` (fields as read in the workflow and
produced by `KubernetesActivities.RollbackDeployment`). -/
structure RollbackDeploymentResponse where
  Success : Bool
  Message : String
deriving DecidableEq

/-- One external activity invocation made by the workflow (the payload parts
that the control flow depends on). -/
inductive ActivityCall where
  | buildDockerImage
  | testDockerContainer
  | pushToRegistry
  | deployToKubernetes (environment : String) (imageTag : String)
  | sendApprovalRequest (imageTag : String) (stagingURL : String)
  | logApprovalDecision (approved : Bool)
  | rollbackDeployment (environment : String) (reason : String)
deriving DecidableEq

/-- An observable step of one workflow execution: an activity invocation, a
signal reception, or the firing of the 30-second validation timer. -/
inductive Event where
  | call (c : ActivityCall)
  | approvalReceived (s : ApprovalSignal)
  | validationReceived (v : ValidationSignal)
  | timerFired
deriving DecidableEq

/-- The external world seen by one workflow execution: the post-retry result
of each activity the workflow may invoke, and the signals delivered on the
`approval` and `validation` channels.  A validation delivery is paired with
its arrival time in seconds after the production deployment, to race against
the 30-second timer. -/
structure Env where
  buildResult : Except String DockerBuildResponse
  testResult : Except String DockerTestResponse
  pushResult : Except String DockerPushResponse
  stagingDeployResult : Except String DeployToKubernetesResponse
  sendApprovalResult : Except String SendApprovalRequestResponse
  logApprovalResult : Except String LogApprovalDecisionResponse
  prodDeployResult : Except String DeployToKubernetesResponse
  approvalDeliveries : List ApprovalSignal
  validationDeliveries : List (Nat × ValidationSignal)
  rollbackResult : Except String RollbackDeploymentResponse

/-- The timer branch of the validation race (pipeline.go, Phase 5): the
timer expired with no validation signal, so `RollbackDeployment` is executed
with reason "Validation timeout after 30 seconds"; its failure is returned
as `rollback failed: ...`, its success falls through to the workflow's `nil`
return.  `rollbackResp.Success` is only logged, never branched on. -/
def rollbackPhase (env : Env) : List Event × Except String Unit :=
  match env.rollbackResult with
  | Except.error e =>
    ([Event.timerFired,
      Event.call (ActivityCall.rollbackDeployment "production"
        "Validation timeout after 30 seconds")],
     Except.error ("rollback failed: " ++ e))
  | Except.ok _ =>
    ([Event.timerFired,
      Event.call (ActivityCall.rollbackDeployment "production"
        "Validation timeout after 30 seconds")],
     Except.ok ())

/-- The validation race of `deployToProduction` (pipeline.go, Phase 5): a
selector waits for either the first delivery on the `validation` channel or
the 30-second timer; only on timer expiry (no validation delivery strictly
inside the window) does the rollback phase run.  The Go code does not
inspect `validation.Validated`; any received validation signal cancels the
timer. -/
def validationRace (env : Env) : List Event × Except String Unit :=
  match env.validationDeliveries.head? with
  | some (t, v) =>
    if t < 30 then
      ([Event.validationReceived v], Except.ok ())
    else
      rollbackPhase env
  | none => rollbackPhase env

/-- The tail of `deployToProduction` after the approval decision has been
received and logged (pipeline.go): reject with the approver's identity and
reason, or deploy to production; a production-deploy failure is returned;
on success the validation race runs when `includeDurableTimers` is set. -/
def afterApprovalDecision (env : Env) (fullImagePath : String)
    (includeDurableTimers : Bool) (evts : List Event)
    (approvalSignal : ApprovalSignal) : Option (List Event × Except String Unit) :=
  if !approvalSignal.Approved then
    some (evts, Except.error ("production deployment rejected by "
      ++ approvalSignal.Approver ++ ": " ++ approvalSignal.Reason))
  else
    match env.prodDeployResult with
    | Except.error e =>
      some (evts ++ [Event.call (ActivityCall.deployToKubernetes "production" fullImagePath)],
        Except.error ("production deployment failed: " ++ e))
    | Except.ok _ =>
      let evts := evts ++ [Event.call (ActivityCall.deployToKubernetes "production" fullImagePath)]
      if includeDurableTimers then
        let race := validationRace env
        some (evts ++ race.1, race.2)
      else
        some (evts, Except.ok ())

/-- `deployToProduction` (pipeline.go): send the approval request (its
failure is returned, terminating the workflow), block on the `approval`
signal channel, execute `LogApprovalDecision` (its failure only logged,
both branches continue identically), then `afterApprovalDecision`.
`none` models blocking forever on an empty approval channel. -/
def deployToProduction (env : Env) (fullImagePath stagingURL : String)
    (includeDurableTimers : Bool) : Option (List Event × Except String Unit) :=
  match env.sendApprovalResult with
  | Except.error e =>
    some ([Event.call (ActivityCall.sendApprovalRequest fullImagePath stagingURL)],
      Except.error ("failed to send approval request: " ++ e))
  | Except.ok _ =>
    match env.approvalDeliveries with
    | [] => none
    | approvalSignal :: _ =>
      let evts :=
        [Event.call (ActivityCall.sendApprovalRequest fullImagePath stagingURL),
         Event.approvalReceived approvalSignal,
         Event.call (ActivityCall.logApprovalDecision approvalSignal.Approved)]
      match env.logApprovalResult with
      | Except.error _ => afterApprovalDecision env fullImagePath includeDurableTimers evts approvalSignal
      | Except.ok _ => afterApprovalDecision env fullImagePath includeDurableTimers evts approvalSignal

/-- `CICDPipelineWorkflow` (pipeline.go): build, test (a well-formed
negative result terminates with the test output), push, then staging
deployment when the environment is `staging` or `production`, then for
`production` the approval / production-deploy / validation-race phase with
durable timers always enabled. -/
def CICDPipelineWorkflow (req : PipelineRequest) (env : Env) :
    Option (List Event × Except String Unit) :=
  match env.buildResult with
  | Except.error e =>
    some ([Event.call ActivityCall.buildDockerImage],
      Except.error ("docker build failed: " ++ e))
  | Except.ok _ =>
    match env.testResult with
    | Except.error e =>
      some ([Event.call ActivityCall.buildDockerImage,
             Event.call ActivityCall.testDockerContainer],
        Except.error ("docker tests failed: " ++ e))
    | Except.ok testResp =>
      if !testResp.Passed then
        some ([Event.call ActivityCall.buildDockerImage,
               Event.call ActivityCall.testDockerContainer],
          Except.error ("docker tests failed: " ++ testResp.Output))
      else
        match env.pushResult with
        | Except.error e =>
          some ([Event.call ActivityCall.buildDockerImage,
                 Event.call ActivityCall.testDockerContainer,
                 Event.call ActivityCall.pushToRegistry],
            Except.error ("docker push failed: " ++ e))
        | Except.ok _ =>
          let evts :=
            [Event.call ActivityCall.buildDockerImage,
             Event.call ActivityCall.testDockerContainer,
             Event.call ActivityCall.pushToRegistry]
          let fullImagePath :=
            if req.RegistryURL ≠ "" then
              req.RegistryURL ++ "/" ++ req.ImageName ++ ":" ++ req.Tag
            else
              req.ImageName ++ ":" ++ req.Tag
          if req.Environment = "staging" ∨ req.Environment = "production" then
            match env.stagingDeployResult with
            | Except.error e =>
              some (evts ++ [Event.call (ActivityCall.deployToKubernetes "staging" fullImagePath)],
                Except.error ("staging deployment failed: " ++ e))
            | Except.ok deployResp =>
              let evts := evts ++ [Event.call (ActivityCall.deployToKubernetes "staging" fullImagePath)]
              if req.Environment = "production" then
                match deployToProduction env fullImagePath deployResp.DeploymentURL true with
                | none => none
                | some (prodEvts, r) => some (evts ++ prodEvts, r)
              else
                some (evts, Except.ok ())
          else
            some (evts, Except.ok ())

/-- The `temporal.RetryPolicy` configuration record (intervals in seconds;
`BackoffCoefficient` is integral, 2.0, so a `Nat` suffices). -/
structure RetryPolicy where
  InitialInterval : Nat
  BackoffCoefficient : Nat
  MaximumInterval : Nat
  MaximumAttempts : Nat
deriving DecidableEq

/-- The activity options' retry policy installed on the workflow context at
the top of `CICDPipelineWorkflow` (pipeline.go): 1s initial interval,
backoff coefficient 2.0, 60s maximum interval, 5 maximum attempts.  Every
activity executed by the workflow runs under this policy. -/
def pipelineRetryPolicy : RetryPolicy :=
  { InitialInterval := 1
    BackoffCoefficient := 2
    MaximumInterval := 60
    MaximumAttempts := 5 }

/-- Modelled from the spec: the durable-execution substrate's delay before
retry number `k` (0-based) — exponential backoff from the initial interval
with the policy's growth factor, capped at the maximum interval. -/
def retryDelay (p : RetryPolicy) (k : Nat) : Nat :=
  min (p.InitialInterval * p.BackoffCoefficient ^ k) p.MaximumInterval

/-- Modelled from the spec: the durable-execution substrate's retry loop for
one external call, starting at attempt number `k` (0-based) with `fuel`
retries remaining after the current attempt.  The substrate returns the
first success — it never retries a successful call; when the fuel is
exhausted the last attempt's result, success or failure, surfaces to the
caller. -/
def retryFrom (attempt : Nat → Except String α) : Nat → Nat → Except String α
  | 0, k => attempt k
  | fuel + 1, k =>
    match attempt k with
    | Except.ok a => Except.ok a
    | Except.error _ => retryFrom attempt fuel (k + 1)

/-- Modelled from the spec: execute one external call under a retry policy —
up to `MaximumAttempts` attempts, returning the first success or, once
attempts are exhausted, the last failure. -/
def retryExecute (p : RetryPolicy) (attempt : Nat → Except String α) :
    Except String α :=
  retryFrom attempt (p.MaximumAttempts - 1) 0

/-- The per-attempt view of the external world: each activity is given by
the outcomes of its successive attempts; the substrate folds them with
`retryExecute` under `pipelineRetryPolicy` to produce the post-retry
results the workflow sees. -/
structure World where
  buildAttempt : Nat → Except String DockerBuildResponse
  testAttempt : Nat → Except String DockerTestResponse
  pushAttempt : Nat → Except String DockerPushResponse
  stagingDeployAttempt : Nat → Except String DeployToKubernetesResponse
  sendApprovalAttempt : Nat → Except String SendApprovalRequestResponse
  logApprovalAttempt : Nat → Except String LogApprovalDecisionResponse
  prodDeployAttempt : Nat → Except String DeployToKubernetesResponse
  approvalDeliveries : List ApprovalSignal
  validationDeliveries : List (Nat × ValidationSignal)
  rollbackAttempt : Nat → Except String RollbackDeploymentResponse

/-- Fold a `World` into the post-retry `Env` consumed by the workflow: every
external call is executed under `pipelineRetryPolicy`. -/
def envOfWorld (w : World) : Env :=
  { buildResult := retryExecute pipelineRetryPolicy w.buildAttempt
    testResult := retryExecute pipelineRetryPolicy w.testAttempt
    pushResult := retryExecute pipelineRetryPolicy w.pushAttempt
    stagingDeployResult := retryExecute pipelineRetryPolicy w.stagingDeployAttempt
    sendApprovalResult := retryExecute pipelineRetryPolicy w.sendApprovalAttempt
    logApprovalResult := retryExecute pipelineRetryPolicy w.logApprovalAttempt
    prodDeployResult := retryExecute pipelineRetryPolicy w.prodDeployAttempt
    approvalDeliveries := w.approvalDeliveries
    validationDeliveries := w.validationDeliveries
    rollbackResult := retryExecute pipelineRetryPolicy w.rollbackAttempt }

/-- Boolean success test for an external-call result. -/
def isOkB : Except String α → Bool
  | Except.ok _ => true
  | Except.error _ => false

/-- The test activity completed and reported `Passed = true`. -/
def testsPassed (env : Env) : Bool :=
  match env.testResult with
  | Except.ok t => t.Passed
  | Except.error _ => false

/-! Observations on event traces. -/

/-- The event is a `DeployToKubernetes` call targeting `production`. -/
def isProdDeploy : Event → Bool
  | Event.call (ActivityCall.deployToKubernetes e _) => e = "production"
  | _ => false

/-- The event is a `DeployToKubernetes` call targeting `staging`. -/
def isStagingDeploy : Event → Bool
  | Event.call (ActivityCall.deployToKubernetes e _) => e = "staging"
  | _ => false

/-- The event is any `DeployToKubernetes` call. -/
def isDeployCall : Event → Bool
  | Event.call (ActivityCall.deployToKubernetes _ _) => true
  | _ => false

/-- The event is a `RollbackDeployment` call. -/
def isRollbackCall : Event → Bool
  | Event.call (ActivityCall.rollbackDeployment _ _) => true
  | _ => false

/-- The event belongs to the production machinery: the approval gate
(notification, approval signal, decision log), the validation race (timer or
validation signal), the rollback trigger, or the production deployment
itself. -/
def isProductionMachinery : Event → Bool
  | Event.call (ActivityCall.sendApprovalRequest _ _) => true
  | Event.call (ActivityCall.logApprovalDecision _) => true
  | Event.call (ActivityCall.rollbackDeployment _ _) => true
  | Event.approvalReceived _ => true
  | Event.validationReceived _ => true
  | Event.timerFired => true
  | Event.call (ActivityCall.deployToKubernetes e _) => e = "production"
  | _ => false

/-- The event resolves the validation race: the timer fired, or a
validation signal was received. -/
def isRaceResolution : Event → Bool
  | Event.timerFired => true
  | Event.validationReceived _ => true
  | _ => false

/-- The event marks the approval wait: the notification sent on entering it,
or the reception of the approval decision. -/
def isApprovalWait : Event → Bool
  | Event.call (ActivityCall.sendApprovalRequest _ _) => true
  | Event.approvalReceived _ => true
  | _ => false

/-- No event satisfying `q` occurs before the first event satisfying `p`:
scanning left to right, an event with `q` before any event with `p` refutes
it, and once `p` holds the rest is unconstrained. -/
def precedes (p q : Event → Bool) : List Event → Bool
  | [] => true
  | e :: rest =>
    if q e then false
    else if p e then true
    else precedes p q rest

/-- The event is the reception of an approval signal with `Approved = true`. -/
def isApprovedTrue : Event → Bool
  | Event.approvalReceived s => s.Approved
  | _ => false

/-- The event is the reception of any approval signal. -/
def isApprovalReception : Event → Bool
  | Event.approvalReceived _ => true
  | _ => false

/-! Concrete fixtures used by witnesses and counterexamples. -/

/-- Sample request targeting staging (scenario A of the spec). -/
def reqStaging : PipelineRequest :=
  { ImageName := "demo-app", Tag := "v1.0.0", RegistryURL := "registry.local"
    Environment := "staging", BuildContext := ".", Dockerfile := "Dockerfile" }

/-- Sample request targeting production. -/
def reqProd : PipelineRequest :=
  { reqStaging with Environment := "production" }

/-- An environment in which every activity succeeds, the approver approves,
and a positive validation signal arrives 5 seconds into the window. -/
def envHappy : Env :=
  { buildResult := Except.ok { ImageID := "sha256:abc", BuildTime := 10 }
    testResult := Except.ok { Passed := true, TestTime := 5, Output := "all tests passed" }
    pushResult := Except.ok { Digest := "sha256:digest", PushTime := 3 }
    stagingDeployResult := Except.ok
      { Success := true, DeploymentURL := "http://staging.demo-app.local:8080", Message := "deployed" }
    sendApprovalResult := Except.ok
      { Success := true, NotificationID := "notif-1", Message := "sent" }
    logApprovalResult := Except.ok { Success := true, Message := "logged" }
    prodDeployResult := Except.ok
      { Success := true, DeploymentURL := "https://demo-app.production.com", Message := "deployed" }
    approvalDeliveries := [{ Approved := true, Approver := "qa", Reason := "looks good" }]
    validationDeliveries := [(5, { Validated := true, Validator := "qa", Reason := "healthy" })]
    rollbackResult := Except.ok
      { Success := true, Message := "Successfully rolled back production deployment" } }

/-- An environment whose validation signal carries `Validated = false` and
arrives 5 seconds into the 30-second window. -/
def envNegValidation : Env :=
  { envHappy with validationDeliveries :=
      [(5, { Validated := false, Validator := "qa", Reason := "not validated" })] }

/-- An environment in which no validation signal is ever delivered, so the
30-second timer wins the race; the rollback call succeeds. -/
def envTimerWin : Env :=
  { envHappy with validationDeliveries := [] }

/-- Like `envTimerWin`, but the rollback call fails even after retries. -/
def envRollbackFail : Env :=
  { envTimerWin with rollbackResult := Except.error "kubectl rollout undo failed" }

/-- An environment in which the approval notification call fails after
retries. -/
def envNotifyFail : Env :=
  { envHappy with sendApprovalResult := Except.error "smtp down" }

/-- An environment in which the tests run but report failure. -/
def envTestsFail : Env :=
  { envHappy with
      testResult := Except.ok ({ Passed := false, TestTime := 5, Output := "2 assertions failed" }) }

/-- An environment in which the approver rejects (scenario B of the spec). -/
def envRejected : Env :=
  { envHappy with approvalDeliveries :=
      [{ Approved := false, Approver := "qa", Reason := "perf regression" }] }

/-- A request whose environment string matches neither `staging` nor
`production` exactly. -/
def reqUnknown : PipelineRequest :=
  { reqStaging with Environment := "prod" }

/-- A world whose build call fails on its first four attempts and succeeds
on the fifth; all other calls succeed immediately. -/
def worldFourFailures : World :=
  { buildAttempt := fun k =>
      if k < 4 then Except.error "dial tcp: connection refused"
      else Except.ok ({ ImageID := "sha256:abc", BuildTime := 10 })
    testAttempt := fun _ => envHappy.testResult
    pushAttempt := fun _ => envHappy.pushResult
    stagingDeployAttempt := fun _ => envHappy.stagingDeployResult
    sendApprovalAttempt := fun _ => envHappy.sendApprovalResult
    logApprovalAttempt := fun _ => envHappy.logApprovalResult
    prodDeployAttempt := fun _ => envHappy.prodDeployResult
    approvalDeliveries := envHappy.approvalDeliveries
    validationDeliveries := envHappy.validationDeliveries
    rollbackAttempt := fun _ => envHappy.rollbackResult }

/-! Lemmas about the substrate's retry loop. -/

/-- The retry loop never retries a successful attempt: it returns the
current attempt's result as soon as it is a success. -/
theorem retryFrom_succeeds (attempt : Nat → Except String α) (a : α)
    (n k : Nat) (h : attempt k = Except.ok a) :
    retryFrom attempt n k = Except.ok a := by
  cases n <;> simp [retryFrom, h]

/-- Under `n` consecutive failures starting at attempt `k`, the retry
loop's result is the result of attempt `k + n`. -/
theorem retryFrom_shift (attempt : Nat → Except String α) :
    ∀ n k, (∀ j, j < n → isOkB (attempt (k + j)) = false) →
      retryFrom attempt n k = attempt (k + n) := by
  intro n
  induction n with
  | zero => intro k _; simp [retryFrom]
  | succ m ih =>
    intro k hfail
    have h0 := hfail 0 (Nat.succ_pos m)
    rcases hf : attempt k with e | a
    · have hrec := ih (k + 1) (fun j hj => by
        have hj2 := hfail (j + 1) (by omega)
        have hkj : k + (j + 1) = k + 1 + j := by omega
        rwa [hkj] at hj2)
      have hkm : k + 1 + m = k + (m + 1) := by omega
      simp [retryFrom, hf, hrec, hkm]
    · rw [Nat.add_zero, hf] at h0
      simp [isOkB] at h0

/-- C4: for every request with environment `staging`, the approval gate,
validation race, rollback trigger and production deployment never execute,
and the pipeline succeeds exactly when the build, test (with a passing
result), push, and staging-deploy calls all succeed. -/
theorem C4_staging_no_production_machinery (req : PipelineRequest) (env : Env)
    (hreq : req.Environment = "staging") :
    ∃ evts r, CICDPipelineWorkflow req env = some (evts, r) ∧
      evts.all (fun e => !isProductionMachinery e) = true ∧
      (r = Except.ok () ↔
        (isOkB env.buildResult && isOkB env.testResult && testsPassed env
          && isOkB env.pushResult && isOkB env.stagingDeployResult) = true) := by
  rcases hb : env.buildResult with eb | b <;>
  rcases ht : env.testResult with et | t <;>
  rcases hpu : env.pushResult with ep | pu <;>
  rcases hs : env.stagingDeployResult with es | s <;>
  rcases htp : testsPassed env <;>
  simp_all [CICDPipelineWorkflow, testsPassed, isOkB, isProductionMachinery, hreq] <;>
  refine ⟨_, _, ⟨rfl, rfl⟩, ?_, ?_⟩ <;>
  simp

/-- Witness for C4: the staging request in the all-success environment. -/
theorem C4_witness :
    reqStaging.Environment = "staging" ∧
    (∃ evts r, CICDPipelineWorkflow reqStaging envHappy = some (evts, r) ∧
      evts.all (fun e => !isProductionMachinery e) = true ∧
      (r = Except.ok () ↔
        (isOkB envHappy.buildResult && isOkB envHappy.testResult && testsPassed envHappy
          && isOkB envHappy.pushResult && isOkB envHappy.stagingDeployResult) = true)) :=
  ⟨rfl, C4_staging_no_production_machinery reqStaging envHappy rfl⟩

/-- C10: for every request whose environment string is neither exactly
`staging` nor exactly `production`, no deployment call of any kind is made,
none of the production machinery runs, and the pipeline completes
successfully exactly when build, test (passing), and push succeed — the
unrecognized environment is not rejected. -/
theorem C10_unknown_environment_no_deploy (req : PipelineRequest) (env : Env)
    (h1 : req.Environment ≠ "staging") (h2 : req.Environment ≠ "production") :
    ∃ evts r, CICDPipelineWorkflow req env = some (evts, r) ∧
      evts.countP isDeployCall = 0 ∧
      evts.all (fun e => !isProductionMachinery e) = true ∧
      (r = Except.ok () ↔
        (isOkB env.buildResult && isOkB env.testResult && testsPassed env
          && isOkB env.pushResult) = true) := by
  rcases hb : env.buildResult with eb | b <;>
  rcases ht : env.testResult with et | t <;>
  rcases hpu : env.pushResult with ep | pu <;>
  rcases htp : testsPassed env <;>
  simp_all [CICDPipelineWorkflow, testsPassed, isOkB] <;>
  refine ⟨_, _, ⟨rfl, rfl⟩, ?_, ?_, ?_⟩ <;>
  simp [isDeployCall, isProductionMachinery]

/-- Witness for C10: the request with environment string `prod`. -/
theorem C10_witness :
    reqUnknown.Environment ≠ "staging" ∧ reqUnknown.Environment ≠ "production" ∧
    (∃ evts r, CICDPipelineWorkflow reqUnknown envHappy = some (evts, r) ∧
      evts.countP isDeployCall = 0 ∧
      evts.all (fun e => !isProductionMachinery e) = true ∧
      (r = Except.ok () ↔
        (isOkB envHappy.buildResult && isOkB envHappy.testResult && testsPassed envHappy
          && isOkB envHappy.pushResult) = true)) :=
  ⟨by decide, by decide,
    C10_unknown_environment_no_deploy reqUnknown envHappy (by decide) (by decide)⟩

/-- C8: when the test call completes but reports `Passed = false`, the
pipeline stops immediately with a `docker tests failed` outcome carrying the
test output, the publish phase never executes, and — since the negative
result is a successful call, not a call failure — the substrate's retry
loop does not retry it. -/
theorem C8_tests_failed_terminal (req : PipelineRequest) (env : Env)
    (b : DockerBuildResponse) (t : DockerTestResponse)
    (hb : env.buildResult = Except.ok b)
    (ht : env.testResult = Except.ok t)
    (htp : t.Passed = false) :
    CICDPipelineWorkflow req env =
      some ([Event.call ActivityCall.buildDockerImage,
             Event.call ActivityCall.testDockerContainer],
        Except.error ("docker tests failed: " ++ t.Output)) ∧
    (∀ evts r, CICDPipelineWorkflow req env = some (evts, r) →
      Event.call ActivityCall.pushToRegistry ∉ evts ∧
      evts.countP (fun e => e = Event.call ActivityCall.testDockerContainer) = 1) ∧
    (∀ (f : Nat → Except String DockerTestResponse) (resp : DockerTestResponse),
      f 0 = Except.ok resp → retryExecute pipelineRetryPolicy f = Except.ok resp) := by
  have hmain : CICDPipelineWorkflow req env =
      some ([Event.call ActivityCall.buildDockerImage,
             Event.call ActivityCall.testDockerContainer],
        Except.error ("docker tests failed: " ++ t.Output)) := by
    simp [CICDPipelineWorkflow, hb, ht, htp]
  refine ⟨hmain, ?_, ?_⟩
  · intro evts r h
    rw [hmain] at h
    obtain ⟨he, _⟩ := by simpa using h
    subst he
    constructor
    · decide
    · decide
  · intro f resp hf
    exact retryFrom_succeeds f resp _ 0 hf

/-- Witness for C8: the environment whose tests report two failed
assertions. -/
theorem C8_witness :
    envTestsFail.buildResult = Except.ok ({ ImageID := "sha256:abc", BuildTime := 10 }) ∧
    envTestsFail.testResult = Except.ok
      ({ Passed := false, TestTime := 5, Output := "2 assertions failed" }) ∧
    CICDPipelineWorkflow reqStaging envTestsFail =
      some ([Event.call ActivityCall.buildDockerImage,
             Event.call ActivityCall.testDockerContainer],
        Except.error ("docker tests failed: " ++ "2 assertions failed")) :=
  ⟨rfl, rfl,
    (C8_tests_failed_terminal reqStaging envTestsFail _ _ rfl rfl rfl).1⟩

/-- C6: when the approval decision received at the gate has
`Approved = false`, the pipeline terminates with the rejection outcome
carrying the approver identity and reason, and no production deployment is
performed. -/
theorem C6_rejected_by_approver (req : PipelineRequest) (env : Env)
    (b : DockerBuildResponse) (t : DockerTestResponse) (pu : DockerPushResponse)
    (sd : DeployToKubernetesResponse) (ar : SendApprovalRequestResponse)
    (s : ApprovalSignal) (rest : List ApprovalSignal)
    (hreq : req.Environment = "production")
    (hb : env.buildResult = Except.ok b)
    (ht : env.testResult = Except.ok t)
    (htp : t.Passed = true)
    (hpu : env.pushResult = Except.ok pu)
    (hs : env.stagingDeployResult = Except.ok sd)
    (hsa : env.sendApprovalResult = Except.ok ar)
    (had : env.approvalDeliveries = s :: rest)
    (happ : s.Approved = false) :
    ∃ evts, CICDPipelineWorkflow req env =
      some (evts, Except.error ("production deployment rejected by "
        ++ s.Approver ++ ": " ++ s.Reason)) ∧
      evts.countP isProdDeploy = 0 ∧
      Event.approvalReceived s ∈ evts := by
  rcases hla : env.logApprovalResult with el | la <;>
  simp [CICDPipelineWorkflow, deployToProduction, afterApprovalDecision,
    hreq, hb, ht, htp, hpu, hs, hsa, had, happ, hla, isProdDeploy]

/-- Witness for C6: scenario B — the rejection signal from approver `qa`
with reason `perf regression`. -/
theorem C6_witness :
    envRejected.approvalDeliveries =
      [{ Approved := false, Approver := "qa", Reason := "perf regression" }] ∧
    (∃ evts, CICDPipelineWorkflow reqProd envRejected =
      some (evts, Except.error ("production deployment rejected by "
        ++ "qa" ++ ": " ++ "perf regression")) ∧
      evts.countP isProdDeploy = 0 ∧
      Event.approvalReceived
        { Approved := false, Approver := "qa", Reason := "perf regression" } ∈ evts) :=
  ⟨rfl, C6_rejected_by_approver reqProd envRejected
    ({ ImageID := "sha256:abc", BuildTime := 10 })
    ({ Passed := true, TestTime := 5, Output := "all tests passed" })
    ({ Digest := "sha256:digest", PushTime := 3 })
    ({ Success := true, DeploymentURL := "http://staging.demo-app.local:8080", Message := "deployed" })
    ({ Success := true, NotificationID := "notif-1", Message := "sent" })
    ({ Approved := false, Approver := "qa", Reason := "perf regression" }) []
    rfl rfl rfl rfl rfl rfl rfl rfl rfl⟩

/-- C9: every external call runs under the retry policy configured at the
top of the workflow — 1s initial interval, growth factor 2, 60s cap, 5
attempts, with delay before retry `k` equal to `min (2 ^ k) 60` — and under
that policy a call failing on its first four attempts then succeeding on
the fifth yields a successful phase result, while failing on all five
attempts surfaces the fifth attempt's error as a terminal activity
failure. -/
theorem C9_retry_policy_and_bound (w : World) (req : PipelineRequest)
    (resp : DockerBuildResponse) (e : String)
    (hfail : ∀ k, k < 4 → isOkB (w.buildAttempt k) = false) :
    pipelineRetryPolicy =
      { InitialInterval := 1, BackoffCoefficient := 2,
        MaximumInterval := 60, MaximumAttempts := 5 } ∧
    (∀ k, retryDelay pipelineRetryPolicy k = min (2 ^ k) 60) ∧
    (w.buildAttempt 4 = Except.ok resp →
      (envOfWorld w).buildResult = Except.ok resp) ∧
    (w.buildAttempt 4 = Except.error e →
      CICDPipelineWorkflow req (envOfWorld w) =
        some ([Event.call ActivityCall.buildDockerImage],
          Except.error ("docker build failed: " ++ e))) := by
  have hshift : retryExecute pipelineRetryPolicy w.buildAttempt = w.buildAttempt 4 := by
    have h := retryFrom_shift w.buildAttempt 4 0 (fun j hj => by
      simpa using hfail j hj)
    simpa [retryExecute, pipelineRetryPolicy] using h
  refine ⟨rfl, ?_, ?_, ?_⟩
  · intro k
    simp [retryDelay, pipelineRetryPolicy]
  · intro hok
    simp [envOfWorld, hshift, hok]
  · intro herr
    have hbuild : (envOfWorld w).buildResult = Except.error e := by
      simp [envOfWorld, hshift, herr]
    simp [CICDPipelineWorkflow, hbuild]

/-- Witness for C9: the four-failures-then-success world satisfies the
failure hypothesis, and its build phase result is the fifth attempt's
success. -/
theorem C9_witness :
    (∀ k, k < 4 → isOkB (worldFourFailures.buildAttempt k) = false) ∧
    (envOfWorld worldFourFailures).buildResult =
      Except.ok ({ ImageID := "sha256:abc", BuildTime := 10 }) :=
  ⟨by decide,
    (C9_retry_policy_and_bound worldFourFailures reqStaging
      ({ ImageID := "sha256:abc", BuildTime := 10 }) "unused"
      (by decide)).2.2.1 rfl⟩

/-- C5: in every production pipeline execution, no approval-wait event
occurs before the staging deployment, and no production deployment occurs
before an approval decision with `Approved = true` has been received —
there is no direct-to-production path. -/
theorem C5_production_ordering (req : PipelineRequest) (env : Env)
    (evts : List Event) (r : Except String Unit)
    (hreq : req.Environment = "production")
    (h : CICDPipelineWorkflow req env = some (evts, r)) :
    precedes isStagingDeploy isApprovalWait evts = true ∧
    precedes isApprovedTrue isProdDeploy evts = true := by
  unfold CICDPipelineWorkflow deployToProduction afterApprovalDecision
    validationRace rollbackPhase at h
  repeat' split at h
  all_goals try exact Option.noConfusion h
  all_goals rw [Option.some.injEq, Prod.mk.injEq] at h
  all_goals obtain ⟨he, hr⟩ := h
  all_goals subst he
  all_goals simp_all [precedes, isStagingDeploy, isApprovalWait, isApprovedTrue, isProdDeploy]

/-- Witness for C5: the production request in the all-success
environment. -/
theorem C5_witness :
    reqProd.Environment = "production" ∧
    (∃ evts r, CICDPipelineWorkflow reqProd envHappy = some (evts, r) ∧
      precedes isStagingDeploy isApprovalWait evts = true ∧
      precedes isApprovedTrue isProdDeploy evts = true) :=
  ⟨rfl, _, _, rfl, C5_production_ordering reqProd envHappy _ _ rfl rfl⟩

/-- C7: the validation race is resolved at most once in any execution (at
most one of timer-fired / validation-received appears in the trace), and a
second delivery of the same approval or validation signal to the already
resolved gate changes nothing: the run is identical to the run that
received the signal only once. -/
theorem C7_race_resolved_once_and_idempotent :
    (∀ (req : PipelineRequest) (env : Env) (evts : List Event) (r : Except String Unit),
      CICDPipelineWorkflow req env = some (evts, r) →
      evts.countP isRaceResolution ≤ 1) ∧
    (∀ (req : PipelineRequest) (env : Env) (s : ApprovalSignal) (rest : List ApprovalSignal),
      CICDPipelineWorkflow req { env with approvalDeliveries := s :: rest } =
        CICDPipelineWorkflow req { env with approvalDeliveries := [s] }) ∧
    (∀ (req : PipelineRequest) (env : Env) (d : Nat × ValidationSignal)
        (rest : List (Nat × ValidationSignal)),
      CICDPipelineWorkflow req { env with validationDeliveries := d :: rest } =
        CICDPipelineWorkflow req { env with validationDeliveries := [d] }) := by
  refine ⟨?_, ?_, ?_⟩
  · intro req env evts r h
    unfold CICDPipelineWorkflow deployToProduction afterApprovalDecision
      validationRace rollbackPhase at h
    repeat' split at h
    all_goals try contradiction
    all_goals rw [Option.some.injEq, Prod.mk.injEq] at h
    all_goals obtain ⟨he, hr⟩ := h
    all_goals subst he
    all_goals simp [isRaceResolution]
  · intro req env s rest
    rfl
  · intro req env d rest
    rcases d with ⟨tv, v⟩
    rfl

/-- Witness for C7: the production run that received one validation signal
resolves the race exactly once, hence at most once. -/
theorem C7_witness :
    ∃ evts r, CICDPipelineWorkflow reqProd envHappy = some (evts, r) ∧
      evts.countP isRaceResolution ≤ 1 :=
  ⟨_, _, rfl, C7_race_resolved_once_and_idempotent.1 reqProd envHappy _ _ rfl⟩

/-- C1 counterexample: in the all-success production run whose validation
signal carries `Validated = false` and arrives 5 seconds into the window,
the signal is received (one race-resolution event), yet the rollback
activity is never invoked and the pipeline completes successfully — the
claim that a false `validated` flag triggers the rollback fails on the
code. -/
theorem C1_counterexample :
    (CICDPipelineWorkflow reqProd envNegValidation).map
        (fun p => (p.1.countP isRollbackCall,
          p.1.countP (fun e => e = Event.validationReceived
            { Validated := false, Validator := "qa", Reason := "not validated" }),
          p.2)) =
      some (0, 1, Except.ok ()) := by
  rfl

/-- C1 (amended): a `ValidationDecision` signal arriving before the
30-second timer cancels the timer regardless of its `validated` flag — the
coordinator never inspects the flag, so a decision with `validated = false`
does NOT trigger the rollback: the pipeline records the signal and
completes successfully, exactly as for a positive validation. -/
theorem C1_amended_any_validation_cancels (req : PipelineRequest) (env : Env)
    (b : DockerBuildResponse) (t : DockerTestResponse) (pu : DockerPushResponse)
    (sd : DeployToKubernetesResponse) (ar : SendApprovalRequestResponse)
    (pd : DeployToKubernetesResponse)
    (s : ApprovalSignal) (rest : List ApprovalSignal)
    (tv : Nat) (v : ValidationSignal) (vrest : List (Nat × ValidationSignal))
    (hreq : req.Environment = "production")
    (hb : env.buildResult = Except.ok b)
    (ht : env.testResult = Except.ok t)
    (htp : t.Passed = true)
    (hpu : env.pushResult = Except.ok pu)
    (hs : env.stagingDeployResult = Except.ok sd)
    (hsa : env.sendApprovalResult = Except.ok ar)
    (had : env.approvalDeliveries = s :: rest)
    (happ : s.Approved = true)
    (hpd : env.prodDeployResult = Except.ok pd)
    (hvd : env.validationDeliveries = (tv, v) :: vrest)
    (htv : tv < 30) :
    ∃ evts, CICDPipelineWorkflow req env = some (evts, Except.ok ()) ∧
      evts.countP isRollbackCall = 0 ∧
      Event.validationReceived v ∈ evts := by
  rcases hla : env.logApprovalResult with el | la <;>
  simp [CICDPipelineWorkflow, deployToProduction, afterApprovalDecision,
    validationRace, hreq, hb, ht, htp, hpu, hs, hsa, had, happ, hla, hpd,
    hvd, htv, isRollbackCall]

/-- Witness for C1 (amended): the `Validated = false` signal at second 5 of
the 30-second window. -/
theorem C1_witness :
    envNegValidation.validationDeliveries =
      [(5, { Validated := false, Validator := "qa", Reason := "not validated" })] ∧
    (5 : Nat) < 30 ∧
    (∃ evts, CICDPipelineWorkflow reqProd envNegValidation = some (evts, Except.ok ()) ∧
      evts.countP isRollbackCall = 0 ∧
      Event.validationReceived
        { Validated := false, Validator := "qa", Reason := "not validated" } ∈ evts) :=
  ⟨rfl, by decide,
    C1_amended_any_validation_cancels reqProd envNegValidation
      ({ ImageID := "sha256:abc", BuildTime := 10 })
      ({ Passed := true, TestTime := 5, Output := "all tests passed" })
      ({ Digest := "sha256:digest", PushTime := 3 })
      ({ Success := true, DeploymentURL := "http://staging.demo-app.local:8080", Message := "deployed" })
      ({ Success := true, NotificationID := "notif-1", Message := "sent" })
      ({ Success := true, DeploymentURL := "https://demo-app.production.com", Message := "deployed" })
      ({ Approved := true, Approver := "qa", Reason := "looks good" }) []
      5 ({ Validated := false, Validator := "qa", Reason := "not validated" }) []
      rfl rfl rfl rfl rfl rfl rfl rfl rfl rfl rfl (by decide)⟩

/-- C2 counterexample: when the timer wins and the rollback call succeeds,
the workflow returns the very same terminal value (`Except.ok ()`, Go's
`nil`) as a plain successful staging pipeline — so the rolled-back terminal
state is NOT distinguishable from `Succeeded`, refuting the claim's
distinguishability requirement. -/
theorem C2_counterexample :
    (CICDPipelineWorkflow reqProd envTimerWin).map
        (fun p => (p.1.countP isRollbackCall, p.2)) = some (1, Except.ok ()) ∧
    (CICDPipelineWorkflow reqStaging envHappy).map
        (fun p => (p.1.countP isRollbackCall, p.2)) = some (0, Except.ok ()) :=
  ⟨rfl, rfl⟩

/-- C2 (amended): whenever the timer wins the race, the rollback activity
is invoked exactly once; if the rollback call fails after retries the
pipeline terminates with the distinct error `rollback failed: ...`, but if
the rollback call succeeds the workflow completes with `Except.ok ()` —
the same terminal value as `Succeeded`, not a distinct `RolledBack`
outcome. -/
theorem C2_amended_timer_win_rollback (req : PipelineRequest) (env : Env)
    (b : DockerBuildResponse) (t : DockerTestResponse) (pu : DockerPushResponse)
    (sd : DeployToKubernetesResponse) (ar : SendApprovalRequestResponse)
    (pd : DeployToKubernetesResponse)
    (s : ApprovalSignal) (rest : List ApprovalSignal)
    (hreq : req.Environment = "production")
    (hb : env.buildResult = Except.ok b)
    (ht : env.testResult = Except.ok t)
    (htp : t.Passed = true)
    (hpu : env.pushResult = Except.ok pu)
    (hs : env.stagingDeployResult = Except.ok sd)
    (hsa : env.sendApprovalResult = Except.ok ar)
    (had : env.approvalDeliveries = s :: rest)
    (happ : s.Approved = true)
    (hpd : env.prodDeployResult = Except.ok pd)
    (hvd : ∀ x ∈ env.validationDeliveries.head?, 30 ≤ x.1) :
    (∃ evts, CICDPipelineWorkflow req env = some (evts, (rollbackPhase env).2) ∧
      evts.countP isRollbackCall = 1) ∧
    (∀ e, env.rollbackResult = Except.error e →
      (rollbackPhase env).2 = Except.error ("rollback failed: " ++ e)) ∧
    (∀ resp, env.rollbackResult = Except.ok resp →
      (rollbackPhase env).2 = Except.ok ()) := by
  have hrace : validationRace env = rollbackPhase env := by
    rcases hvh : env.validationDeliveries.head? with _ | ⟨x⟩
    · simp [validationRace, hvh]
    · have hx := hvd x (by simp [hvh])
      rcases x with ⟨tx, vx⟩
      simp [validationRace, hvh]
      omega
  refine ⟨?_, ?_, ?_⟩
  · rcases hla : env.logApprovalResult with el | la <;>
    rcases hrb : env.rollbackResult with er | rb <;>
    simp [CICDPipelineWorkflow, deployToProduction, afterApprovalDecision,
      hreq, hb, ht, htp, hpu, hs, hsa, had, happ, hla, hpd, hrace,
      rollbackPhase, hrb, isRollbackCall]
  · intro e he
    simp [rollbackPhase, he]
  · intro resp hresp
    simp [rollbackPhase, hresp]

/-- Witness for C2 (amended): no validation signal is ever delivered, the
timer wins, the rollback call succeeds. -/
theorem C2_witness :
    envTimerWin.validationDeliveries = [] ∧
    ((∃ evts, CICDPipelineWorkflow reqProd envTimerWin =
        some (evts, (rollbackPhase envTimerWin).2) ∧
      evts.countP isRollbackCall = 1) ∧
    (∀ e, envTimerWin.rollbackResult = Except.error e →
      (rollbackPhase envTimerWin).2 = Except.error ("rollback failed: " ++ e)) ∧
    (∀ resp, envTimerWin.rollbackResult = Except.ok resp →
      (rollbackPhase envTimerWin).2 = Except.ok ())) :=
  ⟨rfl,
    C2_amended_timer_win_rollback reqProd envTimerWin
      ({ ImageID := "sha256:abc", BuildTime := 10 })
      ({ Passed := true, TestTime := 5, Output := "all tests passed" })
      ({ Digest := "sha256:digest", PushTime := 3 })
      ({ Success := true, DeploymentURL := "http://staging.demo-app.local:8080", Message := "deployed" })
      ({ Success := true, NotificationID := "notif-1", Message := "sent" })
      ({ Success := true, DeploymentURL := "https://demo-app.production.com", Message := "deployed" })
      ({ Approved := true, Approver := "qa", Reason := "looks good" }) []
      rfl rfl rfl rfl rfl rfl rfl rfl rfl rfl (by simp [envTimerWin, envHappy])⟩

/-- C3 counterexample: when the approval notification call
(`SendApprovalRequest`) fails after retries, the pipeline terminates with
that failure and never reaches the approval wait (no approval signal is
ever received) — refuting the claim that the notification is fire-and-
forget and its failure does not terminate the pipeline. -/
theorem C3_counterexample :
    (CICDPipelineWorkflow reqProd envNotifyFail).map
        (fun p => (p.1.countP isApprovalReception, p.2)) =
      some (0, Except.error "failed to send approval request: smtp down") := by
  rfl

/-- C3 (amended): the approval notification call is on the critical path —
its failure after retries terminates the pipeline with an activity failure
before the approval wait begins; the best-effort side call is the
approval-decision logging activity, whose result never affects the
workflow's events or outcome. -/
theorem C3_amended_notification_fatal (req : PipelineRequest) (env : Env)
    (b : DockerBuildResponse) (t : DockerTestResponse) (pu : DockerPushResponse)
    (sd : DeployToKubernetesResponse) (e : String)
    (hreq : req.Environment = "production")
    (hb : env.buildResult = Except.ok b)
    (ht : env.testResult = Except.ok t)
    (htp : t.Passed = true)
    (hpu : env.pushResult = Except.ok pu)
    (hs : env.stagingDeployResult = Except.ok sd)
    (hsa : env.sendApprovalResult = Except.error e) :
    (∃ evts, CICDPipelineWorkflow req env =
        some (evts, Except.error ("failed to send approval request: " ++ e)) ∧
      evts.countP isApprovalReception = 0) ∧
    (∀ x y, CICDPipelineWorkflow req { env with logApprovalResult := x } =
      CICDPipelineWorkflow req { env with logApprovalResult := y }) := by
  constructor
  · simp [CICDPipelineWorkflow, deployToProduction, hreq, hb, ht, htp, hpu,
      hs, hsa, isApprovalReception]
  · intro x y
    rcases x with ex | lx <;> rcases y with ey | ly <;> rfl

/-- Witness for C3 (amended): the environment whose notification call fails
with `smtp down`. -/
theorem C3_witness :
    envNotifyFail.sendApprovalResult = Except.error "smtp down" ∧
    ((∃ evts, CICDPipelineWorkflow reqProd envNotifyFail =
        some (evts, Except.error ("failed to send approval request: " ++ "smtp down")) ∧
      evts.countP isApprovalReception = 0) ∧
    (∀ x y, CICDPipelineWorkflow reqProd { envNotifyFail with logApprovalResult := x } =
      CICDPipelineWorkflow reqProd { envNotifyFail with logApprovalResult := y })) :=
  ⟨rfl,
    C3_amended_notification_fatal reqProd envNotifyFail
      ({ ImageID := "sha256:abc", BuildTime := 10 })
      ({ Passed := true, TestTime := 5, Output := "all tests passed" })
      ({ Digest := "sha256:digest", PushTime := 3 })
      ({ Success := true, DeploymentURL := "http://staging.demo-app.local:8080", Message := "deployed" })
      "smtp down" rfl rfl rfl rfl rfl rfl rfl⟩

end CICD
